import Mathlib

/-!
Shallow embedding of the request-orchestration core of the creatorbrief-ai
repository: the provider adapter wrapper / completion cache / rate limiter
(`src/lib/ai-service.ts`) and the brief workflow (`src/workflows/generate-brief.ts`).

Strings manipulated by the JavaScript code are modelled at the UTF-16 code-unit
level (`List Nat`) where the code indexes or escapes characters (`charCodeAt`,
`JSON.stringify`, regex replacement); plain pass-through text stays `String`.
Timestamps (`Date.now()`) are modelled as `Int` milliseconds, threaded as an
explicit `now` parameter: one orchestrator call is treated as atomic in time.
The mutable `Map`s of `AIServiceWithCache` become association lists inside an
explicit state record, and the provider backend becomes an oracle
`List Nat → Except String String` (prompt ↦ trimmed raw text, or the thrown
message); a `calls` counter in the state counts provider invocations, the
observable the spec's test plan uses.
-/

deriving instance DecidableEq for Except

namespace CreatorBrief

/-- UTF-16 code units of one Unicode scalar value (surrogate pair when above
the basic multilingual plane). -/
def charUnits (c : Char) : List Nat :=
  let n := c.toNat
  if n < 0x10000 then [n]
  else [0xD800 + (n - 0x10000) / 0x400, 0xDC00 + (n - 0x10000) % 0x400]

/-- The UTF-16 code units of a string, i.e. the sequence that JavaScript's
`charCodeAt` / `.length` observe. -/
def utf16 (s : String) : List Nat := (s.data.map charUnits).flatten

/-- JavaScript's whitespace set: the code units matched by `\s` and trimmed by
`String.prototype.trim` (WhiteSpace ∪ LineTerminator). -/
def isJsSpace (u : Nat) : Bool :=
  u == 0x9 || u == 0xA || u == 0xB || u == 0xC || u == 0xD || u == 0x20 ||
  u == 0xA0 || u == 0x1680 || (decide (0x2000 ≤ u) && decide (u ≤ 0x200A)) ||
  u == 0x2028 || u == 0x2029 || u == 0x202F || u == 0x205F || u == 0x3000 ||
  u == 0xFEFF

/-- Drop leading JavaScript whitespace. -/
def dropLeadingWs : List Nat → List Nat
  | [] => []
  | u :: rest => if isJsSpace u then dropLeadingWs rest else u :: rest

/-- `String.prototype.trim` on code units. -/
def jsTrim (l : List Nat) : List Nat :=
  (dropLeadingWs (dropLeadingWs l.reverse).reverse)

/-- Does `pat` occur as a prefix of `l`? -/
def unitsHavePre : List Nat → List Nat → Bool
  | [], _ => true
  | _ :: _, [] => false
  | p :: ps, u :: us => p == u && unitsHavePre ps us

/-! ## `src/lib/ai-service.ts`: `AIServiceWithCache` -/

/-- One entry of the completion cache: raw response text plus creation time
(`this.cache` values in `AIServiceWithCache`). -/
structure CacheEntry where
  data : String
  timestamp : Int
deriving DecidableEq, Repr

/-- The mutable state of the `AIServiceWithCache` singleton: the completion
cache map, the rate-limiter map (caller id ↦ recorded timestamps), and a
provider-invocation counter (the test double's observable call count). -/
structure AIState where
  cache : List (String × CacheEntry)
  rateLimiter : List (String × List Int)
  calls : Nat
deriving DecidableEq, Repr

/-- JavaScript `Map.prototype.set`: overwrite the existing binding in place,
else append. -/
def mapSet {β : Type} (m : List (String × β)) (k : String) (v : β) :
    List (String × β) :=
  match m with
  | [] => [(k, v)]
  | (k', v') :: rest => if k' = k then (k, v) :: rest else (k', v') :: mapSet rest k v

/-- `AIServiceWithCache.isCacheValid`: an entry exists and is younger than one
hour (3600000 ms), strict. -/
def isCacheValid (cache : List (String × CacheEntry)) (key : String) (now : Int) :
    Bool :=
  match cache.lookup key with
  | none => false
  | some cached => decide (now - cached.timestamp < 3600000)

/-- `AIServiceWithCache.isRateLimited`: filter the recorded timestamps of `key`
to those strictly newer than `now - 3600000` and report limited when at least
10 remain.  The filtered list is local: the stored map is not modified. -/
def isRateLimited (rl : List (String × List Int)) (key : String) (now : Int) :
    Bool :=
  let requests := (rl.lookup key).getD []
  let oneHourAgo := now - 3600000
  let recentRequests := requests.filter (fun t => decide (oneHourAgo < t))
  decide (10 ≤ recentRequests.length)

/-- `AIServiceWithCache.updateRateLimit`: append `now` to the stored timestamp
sequence of `key`. -/
def updateRateLimit (rl : List (String × List Int)) (key : String) (now : Int) :
    List (String × List Int) :=
  mapSet rl key (((rl.lookup key).getD []) ++ [now])

/-- JavaScript truthiness of an optional string argument (`cacheKey &&`,
`rateLimitKey &&`): present and non-empty. -/
def strGiven : Option String → Bool
  | none => false
  | some s => !(s == "")

/-- The cache fast path of `generateCompletionWithCache`: when `cacheKey` is
given (truthy) and `isCacheValid` holds, the cached raw text. -/
def cacheHit (cache : List (String × CacheEntry)) (cacheKey : Option String)
    (now : Int) : Option String :=
  match cacheKey with
  | none => none
  | some k =>
    if k ≠ "" ∧ isCacheValid cache k now then (cache.lookup k).map (·.data)
    else none

/-- `AIService.generateCompletion`: one provider call, no retry; a thrown
backend error is re-thrown as `AI service failed: <message>`. -/
def generateCompletion (provider : List Nat → Except String String)
    (prompt : List Nat) : Except String String :=
  match provider prompt with
  | Except.ok s => Except.ok s
  | Except.error e => Except.error ("AI service failed: " ++ e)

/-- `AIServiceWithCache.generateCompletionWithCache`: cache check, then
rate-limit check, then provider call; on success store in cache (if `cacheKey`
given) and record the rate-limit timestamp (if `rateLimitKey` given). -/
def generateCompletionWithCache (provider : List Nat → Except String String)
    (now : Int) (prompt : List Nat) (cacheKey rateLimitKey : Option String)
    (st : AIState) : Except String String × AIState :=
  match cacheHit st.cache cacheKey now with
  | some data => (Except.ok data, st)
  | none =>
    if strGiven rateLimitKey ∧ isRateLimited st.rateLimiter (rateLimitKey.getD "") now then
      (Except.error "Rate limit exceeded. Please try again later.", st)
    else
      let st1 : AIState := { st with calls := st.calls + 1 }
      match generateCompletion provider prompt with
      | Except.error e => (Except.error e, st1)
      | Except.ok result =>
        let st2 : AIState :=
          if strGiven cacheKey then
            { st1 with cache := mapSet st1.cache (cacheKey.getD "") ⟨result, now⟩ }
          else st1
        let st3 : AIState :=
          if strGiven rateLimitKey then
            { st2 with rateLimiter := updateRateLimit st2.rateLimiter (rateLimitKey.getD "") now }
          else st2
        (Except.ok result, st3)

/-! ## `src/workflows/generate-brief.ts`: sanitization, cache key, validation -/

/-- Stage 2 of `sanitizeInput`: `.replace(/[<>]/g, '')`. -/
def stripAngleBrackets (l : List Nat) : List Nat :=
  l.filter (fun u => !(u == 60) && !(u == 62))

/-- Stage 3 of `sanitizeInput`: `.replace(/\n+/g, ' ')` — each maximal run of
newline units becomes one space.  The flag records whether the previous unit
was part of a newline run already replaced. -/
def collapseNewlinesAux : Bool → List Nat → List Nat
  | _, [] => []
  | inRun, u :: rest =>
    if u == 10 then
      if inRun then collapseNewlinesAux true rest
      else 32 :: collapseNewlinesAux true rest
    else u :: collapseNewlinesAux false rest

/-- `.replace(/\n+/g, ' ')` on code units. -/
def collapseNewlines (l : List Nat) : List Nat := collapseNewlinesAux false l

/-- Stage 4 of `sanitizeInput`: `.replace(/"/g, '\\"')`. -/
def escapeQuotes (l : List Nat) : List Nat :=
  (l.map (fun u => if u == 34 then [92, 34] else [u])).flatten

/-- Stage 5 of `sanitizeInput`: `.replace(/\\/g, '\\\\')`, applied after the
quote stage, so it also doubles the backslashes that stage introduced. -/
def escapeBackslashes (l : List Nat) : List Nat :=
  (l.map (fun u => if u == 92 then [92, 92] else [u])).flatten

/-- `sanitizeInput` from `generate-brief.ts`: trim, strip `<`/`>`, collapse
newline runs to one space, replace `"` by `\"`, then double every backslash. -/
def sanitizeInput (l : List Nat) : List Nat :=
  escapeBackslashes (escapeQuotes (collapseNewlines (stripAngleBrackets (jsTrim l))))

/-- Lowercase hex digit code unit for a value below 16 (as used by
`JSON.stringify`'s `\u00xx` escapes). -/
def hexDigit (n : Nat) : Nat := if n < 10 then 48 + n else 87 + n

/-- A `\uXXXX` escape for one code unit. -/
def uEscape (u : Nat) : List Nat :=
  [92, 117, hexDigit (u / 4096 % 16), hexDigit (u / 256 % 16),
   hexDigit (u / 16 % 16), hexDigit (u % 16)]

/-- `JSON.stringify`'s escaping of a single code unit outside a surrogate
pair: short escapes for `"` `\` and common controls, `\u00xx` for other
controls, `\uXXXX` for a lone surrogate, the unit itself otherwise. -/
def quoteChar (u : Nat) : List Nat :=
  if u == 34 then [92, 34]
  else if u == 92 then [92, 92]
  else if u == 8 then [92, 98]
  else if u == 9 then [92, 116]
  else if u == 10 then [92, 110]
  else if u == 12 then [92, 102]
  else if u == 13 then [92, 114]
  else if u < 32 then uEscape u
  else if 0xD800 ≤ u ∧ u ≤ 0xDFFF then uEscape u
  else [u]

/-- The body of a `JSON.stringify` string literal (ES2019 well-formed mode:
paired surrogates pass through, every other unit goes through `quoteChar`). -/
def quoteJSONString : List Nat → List Nat
  | [] => []
  | [u] => quoteChar u
  | u :: v :: rest =>
    if (decide (0xD800 ≤ u) && decide (u ≤ 0xDBFF)) &&
       (decide (0xDC00 ≤ v) && decide (v ≤ 0xDFFF)) then
      u :: v :: quoteJSONString rest
    else quoteChar u ++ quoteJSONString (v :: rest)

/-- A `JSON.stringify` string literal, quotes included. -/
def jstr (s : String) : List Nat := 34 :: (quoteJSONString (utf16 s) ++ [34])

/-- Join code-unit lists with `,` (array elements in `JSON.stringify`). -/
def commaJoin (ls : List (List Nat)) : List Nat :=
  (List.intersperse [44] ls).flatten

/-- The defaulted, caller-identity-free field record that `generateCreatorBrief`
passes to `createCacheKey` and `buildPrompt` (the destructured parameters after
JavaScript default-value substitution, `userId` omitted). -/
structure BriefFields where
  productDescription : String
  targetAudience : String
  campaignGoals : String
  budget : String
  platforms : List String
  timeframe : String
deriving DecidableEq, Repr

/-- `JSON.stringify` of the object literal
`{productDescription, targetAudience, campaignGoals, budget, platforms,
timeframe}` in its insertion order — the `keyData` string of `createCacheKey`.
Note the raw (unsanitized) field values are serialized. -/
def stringifyFields (f : BriefFields) : List Nat :=
  utf16 "\x7b\"productDescription\":" ++ jstr f.productDescription ++
  utf16 ",\"targetAudience\":" ++ jstr f.targetAudience ++
  utf16 ",\"campaignGoals\":" ++ jstr f.campaignGoals ++
  utf16 ",\"budget\":" ++ jstr f.budget ++
  utf16 ",\"platforms\":[" ++ commaJoin (f.platforms.map jstr) ++
  utf16 "],\"timeframe\":" ++ jstr f.timeframe ++ utf16 "\x7d"

/-- Wrap to a 32-bit two's-complement integer (the effect of JavaScript's
`| 0`-style coercion performed by `<<` and `&`). -/
def toInt32 (n : Int) : Int := (n + 2147483648) % 4294967296 - 2147483648

/-- One iteration of `createCacheKey`'s loop:
`hash = ((hash << 5) - hash) + char; hash = hash & hash`. -/
def hashStep (h : Int) (c : Nat) : Int := toInt32 (toInt32 (h * 32) - h + (c : Int))

/-- `createCacheKey`'s loop over the `charCodeAt` sequence.  The accumulator is
matched to constructor form at every iteration, mirroring the imperative loop
(which stores a concrete 32-bit number in `hash` each round). -/
def hashFold : Int → List Nat → Int
  | h, [] => h
  | h, c :: rest =>
    match hashStep h c with
    | Int.ofNat n => hashFold (Int.ofNat n) rest
    | Int.negSucc n => hashFold (Int.negSucc n) rest

/-- The accumulated hash over the `charCodeAt` sequence of `keyData`. -/
def hashUnits (l : List Nat) : Int := hashFold 0 l

/-- `createCacheKey`: `brief_` + absolute value of the 32-bit string hash of
the JSON-serialized (raw, defaulted, `userId`-free) inputs. -/
def createCacheKey (f : BriefFields) : String :=
  "brief_" ++ toString (hashUnits (stringifyFields f)).natAbs

/-- `validateInputs` from `generate-brief.ts`: the four checks in source
order (`?.trim()` falsiness, then UTF-16 length bounds, both strict). -/
def validateInputs (productDescription targetAudience : String) :
    Except String Unit :=
  if jsTrim (utf16 productDescription) = [] then
    Except.error "Product description is required and cannot be empty"
  else if jsTrim (utf16 targetAudience) = [] then
    Except.error "Target audience is required and cannot be empty"
  else if 1000 < (utf16 productDescription).length then
    Except.error "Product description must be less than 1000 characters"
  else if 500 < (utf16 targetAudience).length then
    Except.error "Target audience must be less than 500 characters"
  else Except.ok ()

/-- The exact text of `BRIEF_GENERATION_PROMPT_TEMPLATE` (the template
literal of `generate-brief.ts`, braces written as hex escapes). -/
def BRIEF_GENERATION_PROMPT_TEMPLATE : String :=
  "\n<persona>\n" ++
  "You are \"CreatorBrief AI,\" an expert viral marketing strategist with 10+ years of experience in influencer marketing, content creation, and brand partnerships. You specialize in creating data-driven campaign briefs that maximize engagement and conversion rates across all social media platforms.\n" ++
  "</persona>\n\n<instructions>\n" ++
  "Your task is to generate a comprehensive creator campaign brief based exclusively on the product information provided in the <context> tags below. \n" ++
  "\nThe brief should include:\n1. Campaign objectives with measurable KPIs\n" ++
  "2. Content format recommendations (video, carousel, stories, etc.)\n" ++
  "3. Platform-specific strategies\n4. Messaging pillars and key talking points\n" ++
  "5. Creative direction and visual guidelines\n6. Timeline and deliverables\n" ++
  "7. Performance benchmarks\n\n" ++
  "Focus on creating actionable, specific guidance that creators can immediately implement.\n" ++
  "</instructions>\n\n<output_format>\n" ++
  "Return ONLY a valid JSON object with this exact structure (no markdown formatting, no additional text):\n" ++
  "\n\x7b\n  \"campaignTitle\": \"string\",\n  \"objective\": \"string\",\n" ++
  "  \"platforms\": [\"string\"],\n  \"contentFormats\": [\"string\"],\n" ++
  "  \"messagingPillars\": [\"string\"],\n  \"creativeDirection\": \x7b\n" ++
  "    \"visualStyle\": \"string\",\n    \"toneOfVoice\": \"string\",\n" ++
  "    \"mustHaveElements\": [\"string\"]\n  \x7d,\n  \"deliverables\": \x7b\n" ++
  "    \"primaryContent\": number,\n    \"stories\": number,\n    \"timeline\": \"string\"\n" ++
  "  \x7d,\n  \"kpis\": \x7b\n    \"primaryMetric\": \"string\",\n" ++
  "    \"targetEngagementRate\": \"string\",\n    \"expectedReach\": \"string\"\n  \x7d,\n" ++
  "  \"callToAction\": \"string\",\n  \"complianceNotes\": [\"string\"],\n" ++
  "  \"hashtags\": [\"string\"],\n  \"budgetRecommendations\": \x7b\n" ++
  "    \"creatorFee\": \"string\",\n    \"adSpend\": \"string\"\n  \x7d\n\x7d\n" ++
  "</output_format>\n\n<rules>\n" ++
  "- Base all recommendations on the provided product and audience data\n" ++
  "- Ensure platform-specific optimization (Instagram vs TikTok vs YouTube)\n" ++
  "- Include FTC compliance guidelines for sponsored content\n" ++
  "- Provide specific, actionable creative direction\n" ++
  "- Set realistic but ambitious performance targets\n" ++
  "- Consider seasonal trends and current social media best practices\n" ++
  "- Generate relevant hashtags for each platform\n" ++
  "- Output ONLY valid JSON - no additional text or formatting\n" ++
  "- Ensure all string values are properly escaped for JSON\n</rules>\n\n<context>\n" ++
  "  <productDescription>\n    \x7b\x7bproductDescription\x7d\x7d\n  </productDescription>\n" ++
  "  <targetAudience>\n    \x7b\x7btargetAudience\x7d\x7d\n  </targetAudience>\n" ++
  "  <campaignGoals>\n    \x7b\x7bcampaignGoals\x7d\x7d\n  </campaignGoals>\n  <budget>\n" ++
  "    \x7b\x7bbudget\x7d\x7d\n  </budget>\n  <platforms>\n    \x7b\x7bplatforms\x7d\x7d\n" ++
  "  </platforms>\n  <timeframe>\n    \x7b\x7btimeframe\x7d\x7d\n  </timeframe>\n</context>\n"

/-- `GetSubstitution` for `String.prototype.replace` with a string pattern:
`$$`, `$&` (the matched pattern), a dollar-backquote (the text before the
match, unit 96) and a dollar-apostrophe (the text after, unit 39) are expanded
inside the replacement string; everything else is literal. -/
def substDollar (pre pat post : List Nat) : List Nat → List Nat
  | [] => []
  | 36 :: 36 :: rest => 36 :: substDollar pre pat post rest
  | 36 :: 38 :: rest => pat ++ substDollar pre pat post rest
  | 36 :: 96 :: rest => pre ++ substDollar pre pat post rest
  | 36 :: 39 :: rest => post ++ substDollar pre pat post rest
  | u :: rest => u :: substDollar pre pat post rest

/-- Split a list at the first occurrence of `pat`: `some (pre, post)` with
`l = pre ++ pat ++ post`, or `none` when `pat` does not occur. -/
def findSplit (pat : List Nat) : List Nat → Option (List Nat × List Nat)
  | [] => if unitsHavePre pat [] then some ([], []) else none
  | u :: rest =>
    if unitsHavePre pat (u :: rest) then some ([], (u :: rest).drop pat.length)
    else (findSplit pat rest).map (fun pp => (u :: pp.1, pp.2))

/-- `String.prototype.replace(searchString, replacement)`: replace the first
occurrence only, expanding `$`-substitutions in the replacement. -/
def jsReplaceFirst (s pat rep : List Nat) : List Nat :=
  match findSplit pat s with
  | none => s
  | some (pre, post) => pre ++ substDollar pre pat post rep ++ post

/-- `platforms!.join(', ')`. -/
def joinCommaSpace (ls : List String) : List Nat :=
  (List.intersperse (utf16 ", ") (ls.map utf16)).flatten

/-- `buildPrompt` from `generate-brief.ts`: substitute the six context fields
into the fixed template — the five string fields through `sanitizeInput`, the
`platforms` list joined with `, ` and substituted as-is. -/
def buildPrompt (f : BriefFields) : List Nat :=
  let t0 := utf16 BRIEF_GENERATION_PROMPT_TEMPLATE
  let t1 := jsReplaceFirst t0 (utf16 "\x7b\x7bproductDescription\x7d\x7d")
    (sanitizeInput (utf16 f.productDescription))
  let t2 := jsReplaceFirst t1 (utf16 "\x7b\x7btargetAudience\x7d\x7d")
    (sanitizeInput (utf16 f.targetAudience))
  let t3 := jsReplaceFirst t2 (utf16 "\x7b\x7bcampaignGoals\x7d\x7d")
    (sanitizeInput (utf16 f.campaignGoals))
  let t4 := jsReplaceFirst t3 (utf16 "\x7b\x7bbudget\x7d\x7d")
    (sanitizeInput (utf16 f.budget))
  let t5 := jsReplaceFirst t4 (utf16 "\x7b\x7bplatforms\x7d\x7d")
    (joinCommaSpace f.platforms)
  jsReplaceFirst t5 (utf16 "\x7b\x7btimeframe\x7d\x7d")
    (sanitizeInput (utf16 f.timeframe))

/-! ## The workflow `generateCreatorBrief` -/

/-- The caller-supplied input of `generateCreatorBrief` (`CreatorBriefInput`);
`none` models an absent (`undefined`) optional field, which triggers the
JavaScript default parameter value. -/
structure CreatorBriefInput where
  productDescription : String
  targetAudience : String
  campaignGoals : Option String
  budget : Option String
  platforms : Option (List String)
  timeframe : Option String
  userId : Option String
deriving DecidableEq, Repr

/-- Default-parameter substitution performed by the destructuring head of
`generateCreatorBrief`. -/
def defaultedFields (i : CreatorBriefInput) : BriefFields :=
  { productDescription := i.productDescription
    targetAudience := i.targetAudience
    campaignGoals := i.campaignGoals.getD "Increase brand awareness and drive conversions"
    budget := i.budget.getD "Not specified"
    platforms := i.platforms.getD ["Instagram", "TikTok"]
    timeframe := i.timeframe.getD "30 days" }

/-- `String.prototype.includes` on code units. -/
def jsIncludes (s sub : String) : Bool := decide (utf16 sub <:+: utf16 s)

/-- The catch block of `generateCreatorBrief`: remap a thrown message to the
user-facing message. -/
def remapBriefError (e : String) : String :=
  if jsIncludes e "Rate limit exceeded" then
    "Too many requests. Please try again in an hour."
  else if jsIncludes e "JSON" then
    "Failed to process AI response. Please try again."
  else "Failed to generate creator brief: " ++ e

/-- The front half of `generateCreatorBrief`, up to the raw completion text:
validate, compute the cache key and the prompt from the defaulted fields, and
invoke `generateCompletionWithCache` with `userId` as the rate-limit key. -/
def briefRequestRaw (provider : List Nat → Except String String) (now : Int)
    (i : CreatorBriefInput) (st : AIState) : Except String String × AIState :=
  match validateInputs i.productDescription i.targetAudience with
  | Except.error e => (Except.error e, st)
  | Except.ok _ =>
    let f := defaultedFields i
    generateCompletionWithCache provider now (buildPrompt f)
      (some (createCacheKey f)) i.userId st

/-! ## `JSON.parse` and `parseAndValidateResponse` -/

/-- A JavaScript JSON value.  Strings are kept as UTF-16 code-unit lists
(`\uXXXX` escapes may produce lone surrogates); numbers keep their lexical
parts (sign, integer digits, fraction digits, exponent), which is all the
validator can observe (truthiness). -/
inductive Json where
  | null
  | bool (b : Bool)
  | num (neg : Bool) (intDigits fracDigits : List Nat) (expNeg : Bool)
      (expDigits : List Nat)
  | str (units : List Nat)
  | arr (elems : List Json)
  | obj (fields : List (List Nat × Json))
deriving Repr, Inhabited

/-- JSON insignificant whitespace (space, tab, newline, carriage return). -/
def skipWsJson : List Nat → List Nat
  | [] => []
  | u :: rest =>
    if u == 32 || u == 9 || u == 10 || u == 13 then skipWsJson rest
    else u :: rest

/-- Value of a hex digit code unit. -/
def hexVal (u : Nat) : Option Nat :=
  if 48 ≤ u ∧ u ≤ 57 then some (u - 48)
  else if 97 ≤ u ∧ u ≤ 102 then some (u - 87)
  else if 65 ≤ u ∧ u ≤ 70 then some (u - 55)
  else none

/-- Parse a JSON string body after the opening quote: returns the decoded code
units and the input after the closing quote.  Unescaped control characters and
unknown escapes are syntax errors. -/
def parseStringUnits : List Nat → Option (List Nat × List Nat)
  | [] => none
  | 34 :: rest => some ([], rest)
  | 92 :: 34 :: rest => (parseStringUnits rest).map (fun p => (34 :: p.1, p.2))
  | 92 :: 92 :: rest => (parseStringUnits rest).map (fun p => (92 :: p.1, p.2))
  | 92 :: 47 :: rest => (parseStringUnits rest).map (fun p => (47 :: p.1, p.2))
  | 92 :: 98 :: rest => (parseStringUnits rest).map (fun p => (8 :: p.1, p.2))
  | 92 :: 102 :: rest => (parseStringUnits rest).map (fun p => (12 :: p.1, p.2))
  | 92 :: 110 :: rest => (parseStringUnits rest).map (fun p => (10 :: p.1, p.2))
  | 92 :: 114 :: rest => (parseStringUnits rest).map (fun p => (13 :: p.1, p.2))
  | 92 :: 116 :: rest => (parseStringUnits rest).map (fun p => (9 :: p.1, p.2))
  | 92 :: 117 :: a :: b :: c :: d :: rest =>
    (match hexVal a, hexVal b, hexVal c, hexVal d with
     | some ha, some hb, some hc, some hd =>
       (parseStringUnits rest).map
         (fun p => ((ha * 4096 + hb * 256 + hc * 16 + hd) :: p.1, p.2))
     | _, _, _, _ => none)
  | 92 :: _ => none
  | u :: rest =>
    if u < 32 then none
    else (parseStringUnits rest).map (fun p => (u :: p.1, p.2))

/-- Take the maximal leading run of decimal digit units. -/
def spanDigits : List Nat → List Nat × List Nat
  | [] => ([], [])
  | u :: rest =>
    if 48 ≤ u ∧ u ≤ 57 then
      let p := spanDigits rest
      (u :: p.1, p.2)
    else ([], u :: rest)

/-- Parse the fraction and exponent parts of a JSON number after the integer
part. -/
def parseNumberTail (neg : Bool) (ip : List Nat) (l : List Nat) :
    Option (Json × List Nat) :=
  let fracRes : Option (List Nat × List Nat) :=
    match l with
    | 46 :: r =>
      let p := spanDigits r
      if p.1 = [] then none else some p
    | _ => some ([], l)
  match fracRes with
  | none => none
  | some (fp, l2) =>
    match l2 with
    | e :: r =>
      if e == 101 || e == 69 then
        let er : Bool × List Nat :=
          match r with
          | 43 :: rr => (false, rr)
          | 45 :: rr => (true, rr)
          | _ => (false, r)
        let p := spanDigits er.2
        if p.1 = [] then none
        else some (Json.num neg ip fp er.1 p.1, p.2)
      else some (Json.num neg ip fp false [], e :: r)
    | [] => some (Json.num neg ip fp false [], [])

/-- Parse a JSON number (strict grammar: optional minus, `0` or a nonzero-led
digit run, optional fraction, optional exponent). -/
def parseNumber (l : List Nat) : Option (Json × List Nat) :=
  let h : Bool × List Nat := match l with | 45 :: r => (true, r) | _ => (false, l)
  match h.2 with
  | 48 :: r1 => parseNumberTail h.1 [48] r1
  | u :: r1 =>
    if 49 ≤ u ∧ u ≤ 57 then
      let p := spanDigits r1
      parseNumberTail h.1 (u :: p.1) p.2
    else none
  | [] => none

/-- Parse one or more comma-separated array elements up to the closing `]`,
parameterized by the value parser `pv` for one nesting level down; the `Nat`
argument bounds the number of loop iterations (each consumes input, so the
bound `jsonParse` supplies is ample). -/
def elemsAux (pv : List Nat → Option (Json × List Nat)) :
    Nat → List Nat → Option (List Json × List Nat)
  | 0, _ => none
  | n + 1, l =>
    match pv l with
    | none => none
    | some (v, r) =>
      match skipWsJson r with
      | 44 :: r2 =>
        (match elemsAux pv n (skipWsJson r2) with
         | none => none
         | some (vs, r3) => some (v :: vs, r3))
      | 93 :: r2 => some ([v], r2)
      | _ => none

/-- Parse one or more `"key": value` object members up to the closing brace,
parameterized like `elemsAux`. -/
def fieldsAux (pv : List Nat → Option (Json × List Nat)) :
    Nat → List Nat → Option (List (List Nat × Json) × List Nat)
  | 0, _ => none
  | n + 1, l =>
    match l with
    | 34 :: rest =>
      (match parseStringUnits rest with
       | none => none
       | some (key, r1) =>
         match skipWsJson r1 with
         | 58 :: r2 =>
           (match pv (skipWsJson r2) with
            | none => none
            | some (v, r3) =>
              match skipWsJson r3 with
              | 44 :: r4 =>
                (match fieldsAux pv n (skipWsJson r4) with
                 | none => none
                 | some (fs, r5) => some ((key, v) :: fs, r5))
              | 125 :: r4 => some ([(key, v)], r4)
              | _ => none)
         | _ => none)
    | _ => none

/-- Recursive-descent JSON value parser over code units, with a fuel bound on
nesting depth (ample fuel is supplied by `jsonParse`).  Assumes leading
whitespace was already skipped. -/
def parseValue : Nat → List Nat → Option (Json × List Nat)
  | 0, _ => none
  | fuel + 1, l =>
    match l with
    | 34 :: rest => (parseStringUnits rest).map (fun p => (Json.str p.1, p.2))
    | 91 :: rest =>
      (match skipWsJson rest with
       | 93 :: r2 => some (Json.arr [], r2)
       | r1 =>
         (elemsAux (fun l' => parseValue fuel l') (r1.length + 1) r1).map
           (fun p => (Json.arr p.1, p.2)))
    | 123 :: rest =>
      (match skipWsJson rest with
       | 125 :: r2 => some (Json.obj [], r2)
       | r1 =>
         (fieldsAux (fun l' => parseValue fuel l') (r1.length + 1) r1).map
           (fun p => (Json.obj p.1, p.2)))
    | 116 :: 114 :: 117 :: 101 :: rest => some (Json.bool true, rest)
    | 102 :: 97 :: 108 :: 115 :: 101 :: rest => some (Json.bool false, rest)
    | 110 :: 117 :: 108 :: 108 :: rest => some (Json.null, rest)
    | _ => parseNumber l

/-- `JSON.parse`: parse one value and require only whitespace afterwards;
`none` models a thrown `SyntaxError`. -/
def jsonParse (l : List Nat) : Option Json :=
  match parseValue (l.length + 1) (skipWsJson l) with
  | some (v, rest) => if skipWsJson rest = [] then some v else none
  | none => none

/-- JavaScript truthiness of a parsed JSON value (`null`, `false`, `0`, `""`
are falsy; every object or array is truthy). -/
def truthy : Json → Bool
  | .null => false
  | .bool b => b
  | .num _ ip fp _ _ => (ip ++ fp).any (fun d => !(d == 48))
  | .str u => !u.isEmpty
  | .arr _ => true
  | .obj _ => true

/-- `typeof x === 'object'` for a parsed JSON value (`null` and arrays
included). -/
def jsTypeofObject : Json → Bool
  | .null => true
  | .arr _ => true
  | .obj _ => true
  | _ => false

/-- Property access `briefObj[name]`: the last binding of a duplicate key wins
(as in the object `JSON.parse` builds); `undefined` is `none`. -/
def jsGet : Json → String → Option Json
  | .obj fields, name =>
    ((fields.filter (fun kv => decide (kv.1 = utf16 name))).map (·.2)).getLast?
  | _, _ => none

/-- `requiredFields` of `parseAndValidateResponse`, in source order. -/
def requiredFields : List String :=
  ["campaignTitle", "objective", "platforms", "contentFormats", "messagingPillars"]

/-- `arrayFields` of `parseAndValidateResponse`, in source order. -/
def arrayFields : List String := ["platforms", "contentFormats", "messagingPillars"]

/-- The check `!briefObj[field]` passes, i.e. the field is present and truthy. -/
def fieldTruthy (j : Json) (name : String) : Bool :=
  match jsGet j name with
  | none => false
  | some v => truthy v

/-- `Array.isArray(briefObj[field]) && briefObj[field].length > 0`. -/
def isNonEmptyArray : Option Json → Bool
  | some (.arr (_ :: _)) => true
  | _ => false

/-- `briefObj[name] && typeof briefObj[name] === 'object'`. -/
def fieldIsObject (j : Json) (name : String) : Bool :=
  match jsGet j name with
  | none => false
  | some v => truthy v && jsTypeofObject v

/-- `.replace(/^```json\s*/i, '')`: strip a leading fence with `json` language
tag (case-insensitive) and following whitespace. -/
def stripFenceJson (l : List Nat) : List Nat :=
  match l with
  | 96 :: 96 :: 96 :: j :: s :: o :: n :: rest =>
    if (j == 106 || j == 74) && (s == 115 || s == 83) &&
       (o == 111 || o == 79) && (n == 110 || n == 78) then
      dropLeadingWs rest
    else l
  | _ => l

/-- `.replace(/\s*```$/, '')`: strip a trailing fence and the whitespace before
it. -/
def stripFenceEnd (l : List Nat) : List Nat :=
  match l.reverse with
  | 96 :: 96 :: 96 :: r => (dropLeadingWs r).reverse
  | _ => l

/-- `.replace(/^```\s*/, '')`: strip a leading bare fence and following
whitespace. -/
def stripFenceBare : List Nat → List Nat
  | 96 :: 96 :: 96 :: rest => dropLeadingWs rest
  | l => l

/-- The `cleanResponse` computation of `parseAndValidateResponse`: trim, strip
the optional fences, trim again. -/
def cleanResponse (response : String) : List Nat :=
  jsTrim (stripFenceBare (stripFenceEnd (stripFenceJson (jsTrim (utf16 response)))))

/-- `parseAndValidateResponse` from `generate-brief.ts`: trim, strip optional
code fences, `JSON.parse`, then the structural checks in source order; thrown
messages become `Except.error`. -/
def parseAndValidateResponse (response : String) : Except String Json :=
  match jsonParse (cleanResponse response) with
  | none => Except.error "Invalid JSON response from AI service"
  | some brief =>
    if !truthy brief || !jsTypeofObject brief then
      Except.error "AI response must be a valid object"
    else
      match requiredFields.find? (fun f => !fieldTruthy brief f) with
      | some f => Except.error ("Missing required field in AI response: " ++ f)
      | none =>
        match arrayFields.find? (fun f => !isNonEmptyArray (jsGet brief f)) with
        | some f => Except.error (f ++ " must be a non-empty array")
        | none =>
          if !fieldIsObject brief "creativeDirection" then
            Except.error "creativeDirection must be an object"
          else if !fieldIsObject brief "deliverables" then
            Except.error "deliverables must be an object"
          else if !fieldIsObject brief "kpis" then
            Except.error "kpis must be an object"
          else Except.ok brief

/-- `generateCreatorBrief`: validate, build key and prompt, call the cached
completion service, parse and validate the response; every thrown message is
remapped by the catch block. -/
def generateCreatorBrief (provider : List Nat → Except String String) (now : Int)
    (i : CreatorBriefInput) (st : AIState) : Except String Json × AIState :=
  match briefRequestRaw provider now i st with
  | (Except.error e, st') => (Except.error (remapBriefError e), st')
  | (Except.ok text, st') =>
    match parseAndValidateResponse text with
    | Except.ok brief => (Except.ok brief, st')
    | Except.error e => (Except.error (remapBriefError e), st')

/-! ## Helper lemmas -/

/-- The rate-limit check as a state transition: `isRateLimited` only reads the
store and writes nothing, so the post-state equals the pre-state. -/
def checkRateLimited (rl : List (String × List Int)) (key : String) (now : Int) :
    Bool × List (String × List Int) :=
  (isRateLimited rl key now, rl)

/-- The number of stored timestamps of `key` inside the trailing one-hour
window — the quantity `isRateLimited` compares against 10. -/
def inWindowCount (rl : List (String × List Int)) (key : String) (now : Int) :
    Nat :=
  (((rl.lookup key).getD []).filter (fun t => decide (now - 3600000 < t))).length

theorem lookup_mapSet_self {β : Type} (m : List (String × β)) (k : String) (v : β) :
    (mapSet m k v).lookup k = some v := by
  induction m with
  | nil => simp [mapSet, List.lookup]
  | cons hd tl ih =>
    obtain ⟨k', v'⟩ := hd
    by_cases h : k' = k
    · subst h; simp [mapSet, List.lookup]
    · have hb : (k == k') = false := beq_eq_false_iff_ne.mpr (Ne.symm h)
      simp [mapSet, h, List.lookup, hb, ih]

theorem isRateLimited_eq_count (rl : List (String × List Int)) (key : String)
    (now : Int) :
    isRateLimited rl key now = decide (10 ≤ inWindowCount rl key now) := rfl

theorem inWindowCount_update (rl : List (String × List Int)) (key : String)
    (now : Int) :
    inWindowCount (updateRateLimit rl key now) key now
      = inWindowCount rl key now + 1 := by
  unfold inWindowCount updateRateLimit
  rw [lookup_mapSet_self]
  have hnow : (decide (now - 3600000 < now)) = true := by
    simp only [decide_eq_true_eq]; omega
  simp [List.filter_append, hnow]

theorem createCacheKey_ne_empty (f : BriefFields) : createCacheKey f ≠ "" := by
  unfold createCacheKey
  intro h
  have hd := congrArg String.data h
  rw [String.data_append] at hd
  have hb : "brief_".data = [] := (List.append_eq_nil.mp hd).1
  exact absurd hb (by decide)

/-- A valid cache hit short-circuits the orchestrator: the cached text is
returned and the state is untouched. -/
theorem gcwc_hit (provider : List Nat → Except String String) (now : Int)
    (prompt : List Nat) (ck rk : Option String) (st : AIState) (d : String)
    (hhit : cacheHit st.cache ck now = some d) :
    generateCompletionWithCache provider now prompt ck rk st = (Except.ok d, st) := by
  unfold generateCompletionWithCache
  rw [hhit]

/-- A cache miss with no rate limiting: the provider is consulted once and the
result is stored under the cache key; the rate limiter records the call when a
caller id is given. -/
theorem gcwc_miss_ok (provider : List Nat → Except String String) (now : Int)
    (prompt : List Nat) (r : String) (k : String) (rk : Option String)
    (st : AIState)
    (hp : provider prompt = Except.ok r)
    (hk : k ≠ "")
    (hmiss : cacheHit st.cache (some k) now = none)
    (hnl : strGiven rk = true → isRateLimited st.rateLimiter (rk.getD "") now = false) :
    generateCompletionWithCache provider now prompt (some k) rk st
      = (Except.ok r,
         ⟨mapSet st.cache k ⟨r, now⟩,
          if strGiven rk then updateRateLimit st.rateLimiter (rk.getD "") now
          else st.rateLimiter,
          st.calls + 1⟩) := by
  have hsg : strGiven (some k) = true := by simp [strGiven]; exact hk
  unfold generateCompletionWithCache
  rw [hmiss]
  simp only [generateCompletion, hp]
  by_cases hrk : strGiven rk = true
  · simp [hrk, hnl hrk, hsg]
  · simp [hrk, hsg]

/-- Two workflow invocations with equal defaulted fields: the first (from an
empty cache, not rate-limited) consults the provider once and caches the raw
text; the second, within the TTL, returns the identical raw text from the
cache with the state — in particular the provider-call counter and the
rate-limiter store — completely unchanged. -/
theorem briefRequestRaw_two_runs
    (provider : List Nat → Except String String) (r : String)
    (hp : ∀ p, provider p = Except.ok r)
    (i1 i2 : CreatorBriefInput) (hdf : defaultedFields i1 = defaultedFields i2)
    (t1 t2 : Int) (st0 : AIState)
    (hv : validateInputs i1.productDescription i1.targetAudience = Except.ok ())
    (hc : st0.cache = [])
    (hnl : ∀ rk, i1.userId = some rk → isRateLimited st0.rateLimiter rk t1 = false)
    (httl : t2 - t1 < 3600000) :
    ∃ st1 : AIState,
      briefRequestRaw provider t1 i1 st0 = (Except.ok r, st1)
      ∧ st1.cache = [(createCacheKey (defaultedFields i1), ⟨r, t1⟩)]
      ∧ st1.calls = st0.calls + 1
      ∧ briefRequestRaw provider t2 i2 st1 = (Except.ok r, st1) := by
  have hpd : i1.productDescription = i2.productDescription :=
    congrArg BriefFields.productDescription hdf
  have hta : i1.targetAudience = i2.targetAudience :=
    congrArg BriefFields.targetAudience hdf
  have hkey : createCacheKey (defaultedFields i1) ≠ "" := createCacheKey_ne_empty _
  have hmiss1 : cacheHit st0.cache (some (createCacheKey (defaultedFields i1))) t1
      = none := by
    simp [cacheHit, isCacheValid, hc, List.lookup]
  have hnl2 : strGiven i1.userId = true →
      isRateLimited st0.rateLimiter (i1.userId.getD "") t1 = false := by
    intro h
    cases h' : i1.userId with
    | none => rw [h'] at h; simp [strGiven] at h
    | some rk => specialize hnl rk h'; simpa [h'] using hnl
  have run1 :
      briefRequestRaw provider t1 i1 st0
        = (Except.ok r,
           ⟨mapSet st0.cache (createCacheKey (defaultedFields i1)) ⟨r, t1⟩,
            if strGiven i1.userId then
              updateRateLimit st0.rateLimiter (i1.userId.getD "") t1
            else st0.rateLimiter,
            st0.calls + 1⟩) := by
    unfold briefRequestRaw
    rw [hv]
    exact gcwc_miss_ok provider t1 _ r _ i1.userId st0 (hp _) hkey hmiss1 hnl2
  refine ⟨_, run1, ?_, rfl, ?_⟩
  · simp [hc, mapSet]
  · unfold briefRequestRaw
    rw [← hpd, ← hta, hv, ← hdf]
    apply gcwc_hit
    have hvalid : decide (t2 - t1 < 3600000) = true := by
      simp only [decide_eq_true_eq]; exact httl
    simp [cacheHit, isCacheValid, hc, mapSet, List.lookup, hvalid, hkey]

/-! ## Claim theorems -/

/-- C2: the rate-limit check reports "limited" exactly when the number of
recorded timestamps strictly newer than `now` minus one hour is at least 10;
consequently, on a cache miss, a caller with 9 in-window timestamps (their
10th request) is admitted and ends up with 10, while a caller with 10
in-window timestamps (their 11th request) fails with the rate-limit error. -/
theorem c2_rate_limit_threshold
    (provider : List Nat → Except String String) (prompt : List Nat) (r : String)
    (st : AIState) (ck : Option String) (key : String) (now : Int)
    (hp : provider prompt = Except.ok r)
    (hhit : cacheHit st.cache ck now = none)
    (hkey : key ≠ "") :
    (isRateLimited st.rateLimiter key now = true
      ↔ 10 ≤ inWindowCount st.rateLimiter key now)
    ∧ (inWindowCount st.rateLimiter key now = 9 →
        (generateCompletionWithCache provider now prompt ck (some key) st).1
            = Except.ok r
        ∧ inWindowCount
            (generateCompletionWithCache provider now prompt ck (some key) st).2.rateLimiter
            key now = 10)
    ∧ (10 ≤ inWindowCount st.rateLimiter key now →
        generateCompletionWithCache provider now prompt ck (some key) st
          = (Except.error "Rate limit exceeded. Please try again later.", st)) := by
  have hsg : strGiven (some key) = true := by
    simp [strGiven]
    exact hkey
  refine ⟨by rw [isRateLimited_eq_count]; simp, ?_, ?_⟩
  · intro h9
    have hnl : isRateLimited st.rateLimiter key now = false := by
      rw [isRateLimited_eq_count, h9]; simp
    unfold generateCompletionWithCache
    rw [hhit]
    simp only [Option.getD, hsg, hnl]
    simp only [generateCompletion, hp]
    constructor
    · by_cases hc : strGiven ck = true <;> simp [hc]
    · by_cases hc : strGiven ck = true <;>
        simp [hc, inWindowCount_update, h9]
  · intro h10
    have hl : isRateLimited st.rateLimiter key now = true := by
      rw [isRateLimited_eq_count]; simpa using h10
    unfold generateCompletionWithCache
    rw [hhit]
    simp [hsg, hl]

/-- C2 witness: from a state holding 9 in-window timestamps for caller `u`,
the next request is admitted. -/
theorem c2_witness :
    (generateCompletionWithCache (fun _ => Except.ok "X") 0 [] none (some "u")
        ⟨[], [("u", List.replicate 9 (0 : Int))], 0⟩).1 = Except.ok "X" :=
  ((c2_rate_limit_threshold (fun _ => Except.ok "X") [] "X"
      ⟨[], [("u", List.replicate 9 (0 : Int))], 0⟩ none "u" 0 rfl rfl
      (by decide)).2.1 (by decide)).1

/-- C7 counterexample: record caller `u` at time 0, then run the rate-limit
check at time 7200000 (two hours later).  The check leaves the store
unchanged, so the stored sequence still retains the timestamp 0, which lies
outside the trailing one-hour window — the claimed retention invariant
("only timestamps within the trailing window are retained, pruned lazily on
each check") is false. -/
theorem c7_counterexample :
    ((((checkRateLimited (updateRateLimit [] "u" 0) "u" 7200000).2.lookup
        "u").getD []).any (fun t => decide (t ≤ 7200000 - 3600000))) = true := by
  decide

/-- C7 amended: the stored timestamp sequence is append-only and may retain
out-of-window timestamps — the check never writes the store — but the
admission decision only depends on the in-window timestamps: prepending an
out-of-window timestamp to a caller's stored sequence does not change the
check's verdict, and recording a request raises that caller's in-window count
by exactly one. -/
theorem c7_retention_amended (rl : List (String × List Int)) (key : String)
    (now t : Int) (hout : t ≤ now - 3600000) :
    (checkRateLimited rl key now).2 = rl
    ∧ isRateLimited (mapSet rl key (t :: (rl.lookup key).getD [])) key now
        = isRateLimited rl key now
    ∧ inWindowCount (updateRateLimit rl key now) key now
        = inWindowCount rl key now + 1 := by
  refine ⟨rfl, ?_, inWindowCount_update rl key now⟩
  rw [isRateLimited_eq_count, isRateLimited_eq_count]
  unfold inWindowCount
  rw [lookup_mapSet_self]
  have ht : (decide (now - 3600000 < t)) = false := by
    simp only [decide_eq_false_iff_not]; omega
  simp [List.filter, ht]

/-- C7 witness: instantiation of the amended retention statement at a store
holding one fresh and one stale timestamp. -/
theorem c7_witness :
    (checkRateLimited [("u", [(3599999 : Int)])] "u" 7200000).2
        = [("u", [(3599999 : Int)])]
    ∧ isRateLimited
        (mapSet [("u", [(3599999 : Int)])] "u"
          ((0 : Int) :: (([("u", [(3599999 : Int)])].lookup "u").getD [])))
        "u" 7200000
        = isRateLimited [("u", [(3599999 : Int)])] "u" 7200000
    ∧ inWindowCount (updateRateLimit [("u", [(3599999 : Int)])] "u" 7200000)
        "u" 7200000
        = inWindowCount [("u", [(3599999 : Int)])] "u" 7200000 + 1 :=
  c7_retention_amended [("u", [(3599999 : Int)])] "u" 7200000 0 (by decide)

set_option maxRecDepth 8000 in
/-- C1 counterexample: two workflow inputs with identical *sanitized* field
values (differing only in leading whitespace, which sanitization strips) and
the same caller do not share a cache entry: after the first call populates the
cache, the second call within the TTL still misses, consults the provider a
second time, and increments caller `u`'s rate-limit counter from 1 to 2 —
refuting the claim's "identical sanitized inputs" consequence. -/
theorem c1_counterexample :
    sanitizeInput (utf16 " a") = sanitizeInput (utf16 "a")
    ∧ (((briefRequestRaw (fun _ => Except.ok "X") 0
          ⟨" a", "b", none, none, none, none, some "u"⟩
          ⟨[], [], 0⟩).2.rateLimiter.lookup "u").getD []).length = 1
    ∧ (((briefRequestRaw (fun _ => Except.ok "X") 1
          ⟨"a", "b", none, none, none, none, some "u"⟩
          (briefRequestRaw (fun _ => Except.ok "X") 0
            ⟨" a", "b", none, none, none, none, some "u"⟩
            ⟨[], [], 0⟩).2).2.rateLimiter.lookup "u").getD []).length = 2
    ∧ (briefRequestRaw (fun _ => Except.ok "X") 1
          ⟨"a", "b", none, none, none, none, some "u"⟩
          (briefRequestRaw (fun _ => Except.ok "X") 0
            ⟨" a", "b", none, none, none, none, some "u"⟩
            ⟨[], [], 0⟩).2).2.calls = 2 := by
  refine ⟨by decide, by decide, by decide, by decide⟩

/-- C1 (amended: the idempotence consequence holds for identical *inputs*,
i.e. identical defaulted field values, rather than identical sanitized
inputs): on a valid cache hit the orchestrator returns the cached raw text
immediately with the state — hence the rate-limit window and the provider-call
count — unchanged; and a second workflow call with identical inputs and the
same caller within the TTL returns the same raw text and leaves the caller's
rate-limit counter unchanged. -/
theorem c1_cache_fast_path :
    (∀ (provider : List Nat → Except String String) (now : Int)
       (prompt : List Nat) (rk : Option String) (st : AIState) (k : String)
       (entry : CacheEntry),
        k ≠ "" → st.cache.lookup k = some entry →
        now - entry.timestamp < 3600000 →
        generateCompletionWithCache provider now prompt (some k) rk st
          = (Except.ok entry.data, st))
    ∧ (∀ (provider : List Nat → Except String String) (r : String),
        (∀ p, provider p = Except.ok r) →
        ∀ (i : CreatorBriefInput) (t1 t2 : Int) (st0 : AIState),
          validateInputs i.productDescription i.targetAudience = Except.ok () →
          st0.cache = [] →
          (∀ rk, i.userId = some rk → isRateLimited st0.rateLimiter rk t1 = false) →
          t2 - t1 < 3600000 →
          ∃ st1, briefRequestRaw provider t1 i st0 = (Except.ok r, st1)
            ∧ briefRequestRaw provider t2 i st1 = (Except.ok r, st1)) := by
  constructor
  · intro provider now prompt rk st k entry hk hl ht
    apply gcwc_hit
    have hd : decide (now - entry.timestamp < 3600000) = true := by
      simp only [decide_eq_true_eq]; exact ht
    simp [cacheHit, isCacheValid, hl, hk, hd]
  · intro provider r hp i t1 t2 st0 hv hc hnl httl
    obtain ⟨st1, h1, _, _, h2⟩ :=
      briefRequestRaw_two_runs provider r hp i i rfl t1 t2 st0 hv hc hnl httl
    exact ⟨st1, h1, h2⟩

/-- C1 witness: the fast path at a concrete cached entry, and the idempotent
second run at a concrete input. -/
theorem c1_witness :
    generateCompletionWithCache (fun _ => Except.error "down") 10 [] (some "k")
        none ⟨[("k", ⟨"D", 0⟩)], [], 5⟩ = (Except.ok "D", ⟨[("k", ⟨"D", 0⟩)], [], 5⟩)
    ∧ ∃ st1, briefRequestRaw (fun _ => Except.ok "X") 0
          ⟨"p", "t", none, none, none, none, some "u"⟩ ⟨[], [], 0⟩
          = (Except.ok "X", st1)
        ∧ briefRequestRaw (fun _ => Except.ok "X") 1
            ⟨"p", "t", none, none, none, none, some "u"⟩ st1
            = (Except.ok "X", st1) :=
  ⟨c1_cache_fast_path.1 (fun _ => Except.error "down") 10 [] none
      ⟨[("k", ⟨"D", 0⟩)], [], 5⟩ "k" ⟨"D", 0⟩ (by decide) rfl (by decide),
   c1_cache_fast_path.2 (fun _ => Except.ok "X") "X" (fun _ => rfl)
      ⟨"p", "t", none, none, none, none, some "u"⟩ 0 1 ⟨[], [], 0⟩
      (by decide) rfl (fun rk h => by cases h; rfl) (by decide)⟩

set_option maxRecDepth 8000 in
/-- C3 counterexample: two inputs whose sanitized, defaulted field values are
all equal (they differ only in leading whitespace that sanitization strips)
receive different cache fingerprints, because `createCacheKey` hashes the raw
pre-sanitization field values. -/
theorem c3_counterexample :
    (fun f : BriefFields =>
        (sanitizeInput (utf16 f.productDescription),
         sanitizeInput (utf16 f.targetAudience),
         sanitizeInput (utf16 f.campaignGoals),
         sanitizeInput (utf16 f.budget),
         f.platforms.map (fun p => sanitizeInput (utf16 p)),
         sanitizeInput (utf16 f.timeframe)))
      (defaultedFields ⟨" a", "b", none, none, none, none, none⟩)
    = (fun f : BriefFields =>
        (sanitizeInput (utf16 f.productDescription),
         sanitizeInput (utf16 f.targetAudience),
         sanitizeInput (utf16 f.campaignGoals),
         sanitizeInput (utf16 f.budget),
         f.platforms.map (fun p => sanitizeInput (utf16 p)),
         sanitizeInput (utf16 f.timeframe)))
      (defaultedFields ⟨"a", "b", none, none, none, none, none⟩)
    ∧ createCacheKey (defaultedFields ⟨" a", "b", none, none, none, none, none⟩)
        ≠ createCacheKey (defaultedFields ⟨"a", "b", none, none, none, none, none⟩) := by
  refine ⟨by decide, by decide⟩

/-- C3 (amended: the fingerprint is a function of the raw, defaulted field
values — sanitization is not applied before fingerprinting — and still takes
no caller identity input, so callers with identical raw fields share one
entry). -/
theorem c3_fingerprint_raw_fields (i1 i2 : CreatorBriefInput)
    (hpd : i1.productDescription = i2.productDescription)
    (hta : i1.targetAudience = i2.targetAudience)
    (hcg : i1.campaignGoals = i2.campaignGoals)
    (hbu : i1.budget = i2.budget)
    (hpl : i1.platforms = i2.platforms)
    (htf : i1.timeframe = i2.timeframe) :
    createCacheKey (defaultedFields i1) = createCacheKey (defaultedFields i2) := by
  have hdf : defaultedFields i1 = defaultedFields i2 := by
    unfold defaultedFields
    rw [hpd, hta, hcg, hbu, hpl, htf]
  rw [hdf]

/-- C3 witness: identical raw fields with different caller identities share
one fingerprint. -/
theorem c3_witness :
    createCacheKey (defaultedFields ⟨"p", "t", none, none, none, none, some "alice"⟩)
      = createCacheKey (defaultedFields ⟨"p", "t", none, none, none, none, some "bob"⟩) :=
  c3_fingerprint_raw_fields
    ⟨"p", "t", none, none, none, none, some "alice"⟩
    ⟨"p", "t", none, none, none, none, some "bob"⟩
    rfl rfl rfl rfl rfl rfl

/-- C5: the fingerprint computation takes no caller identity input, so two
invocations with different caller identities but identical remaining fields
compute the same cache key; after the first succeeds (one provider call), the
second within the TTL returns the cached raw text with the state — and hence
the provider-call count — unchanged. -/
theorem c5_caller_noninterference
    (provider : List Nat → Except String String) (r : String)
    (hp : ∀ p, provider p = Except.ok r)
    (i1 i2 : CreatorBriefInput)
    (hpd : i1.productDescription = i2.productDescription)
    (hta : i1.targetAudience = i2.targetAudience)
    (hcg : i1.campaignGoals = i2.campaignGoals)
    (hbu : i1.budget = i2.budget)
    (hpl : i1.platforms = i2.platforms)
    (htf : i1.timeframe = i2.timeframe)
    (t1 t2 : Int) (st0 : AIState)
    (hv : validateInputs i1.productDescription i1.targetAudience = Except.ok ())
    (hc : st0.cache = [])
    (hnl : ∀ rk, i1.userId = some rk → isRateLimited st0.rateLimiter rk t1 = false)
    (httl : t2 - t1 < 3600000) :
    createCacheKey (defaultedFields i1) = createCacheKey (defaultedFields i2)
    ∧ ∃ st1, briefRequestRaw provider t1 i1 st0 = (Except.ok r, st1)
        ∧ st1.calls = st0.calls + 1
        ∧ briefRequestRaw provider t2 i2 st1 = (Except.ok r, st1) := by
  have hdf : defaultedFields i1 = defaultedFields i2 := by
    unfold defaultedFields
    rw [hpd, hta, hcg, hbu, hpl, htf]
  refine ⟨by rw [hdf], ?_⟩
  obtain ⟨st1, h1, _, hcalls, h2⟩ :=
    briefRequestRaw_two_runs provider r hp i1 i2 hdf t1 t2 st0 hv hc hnl httl
  exact ⟨st1, h1, hcalls, h2⟩

/-- C5 witness: callers `alice` and `bob` with identical remaining fields
share one cache entry and one provider call. -/
theorem c5_witness :
    createCacheKey (defaultedFields ⟨"p", "t", none, none, none, none, some "alice"⟩)
      = createCacheKey (defaultedFields ⟨"p", "t", none, none, none, none, some "bob"⟩)
    ∧ ∃ st1, briefRequestRaw (fun _ => Except.ok "X") 0
          ⟨"p", "t", none, none, none, none, some "alice"⟩ ⟨[], [], 0⟩
          = (Except.ok "X", st1)
        ∧ st1.calls = 0 + 1
        ∧ briefRequestRaw (fun _ => Except.ok "X") 1
            ⟨"p", "t", none, none, none, none, some "bob"⟩ st1
            = (Except.ok "X", st1) :=
  c5_caller_noninterference (fun _ => Except.ok "X") "X" (fun _ => rfl)
    ⟨"p", "t", none, none, none, none, some "alice"⟩
    ⟨"p", "t", none, none, none, none, some "bob"⟩
    rfl rfl rfl rfl rfl rfl 0 1 ⟨[], [], 0⟩
    (by decide) rfl (fun rk h => by cases h; rfl) (by decide)

/-- `utf16` is an append homomorphism. -/
theorem utf16_append (a b : String) : utf16 (a ++ b) = utf16 a ++ utf16 b := by
  simp [utf16]

/-- `includes` always holds for an appended suffix. -/
theorem jsIncludes_append_right (a b : String) : jsIncludes (a ++ b) b = true := by
  unfold jsIncludes
  rw [decide_eq_true_eq, utf16_append]
  exact (List.suffix_append (utf16 a) (utf16 b)).isInfix

/-- A cache miss with a failing provider: the error is wrapped, the call is
counted, and neither the cache nor the rate limiter is touched. -/
theorem gcwc_miss_err (provider : List Nat → Except String String) (now : Int)
    (prompt : List Nat) (msg : String) (k : String) (rk : Option String)
    (st : AIState)
    (hp : provider prompt = Except.error msg)
    (hmiss : cacheHit st.cache (some k) now = none)
    (hnl : strGiven rk = true → isRateLimited st.rateLimiter (rk.getD "") now = false) :
    generateCompletionWithCache provider now prompt (some k) rk st
      = (Except.error ("AI service failed: " ++ msg),
         { st with calls := st.calls + 1 }) := by
  unfold generateCompletionWithCache
  rw [hmiss]
  by_cases hrk : strGiven rk = true
  · simp [hrk, hnl hrk, generateCompletion, hp]
  · simp [hrk, generateCompletion, hp]

/-- C6: an input whose `productDescription` is empty after trimming or longer
than 1000 UTF-16 units, or whose `targetAudience` is empty after trimming or
longer than 500 units, makes `generateCreatorBrief` fail with the wrapped
validation message and leaves the state untouched: no provider call, no cache
write, no rate-limit recording. -/
theorem c6_validation_fail_fast
    (provider : List Nat → Except String String) (now : Int)
    (i : CreatorBriefInput) (st : AIState)
    (hbad : jsTrim (utf16 i.productDescription) = []
        ∨ 1000 < (utf16 i.productDescription).length
        ∨ jsTrim (utf16 i.targetAudience) = []
        ∨ 500 < (utf16 i.targetAudience).length) :
    ∃ e, validateInputs i.productDescription i.targetAudience = Except.error e
      ∧ generateCreatorBrief provider now i st
          = (Except.error ("Failed to generate creator brief: " ++ e), st) := by
  have hv : ∃ e, validateInputs i.productDescription i.targetAudience
        = Except.error e
      ∧ remapBriefError e = "Failed to generate creator brief: " ++ e := by
    unfold validateInputs
    split_ifs with h1 h2 h3 h4
    · exact ⟨_, rfl, by decide⟩
    · exact ⟨_, rfl, by decide⟩
    · exact ⟨_, rfl, by decide⟩
    · exact ⟨_, rfl, by decide⟩
    · rcases hbad with h | h | h | h
      · exact absurd h h1
      · exact absurd h h3
      · exact absurd h h2
      · exact absurd h h4
  obtain ⟨e, he, hre⟩ := hv
  refine ⟨e, he, ?_⟩
  unfold generateCreatorBrief briefRequestRaw
  rw [he, ← hre]

/-- C6 witness: an empty product description fails fast with the state
untouched. -/
theorem c6_witness :
    ∃ e, validateInputs "" "t" = Except.error e
      ∧ generateCreatorBrief (fun _ => Except.ok "X") 0
          ⟨"", "t", none, none, none, none, none⟩ ⟨[], [], 3⟩
          = (Except.error ("Failed to generate creator brief: " ++ e),
             ⟨[], [], 3⟩) :=
  c6_validation_fail_fast (fun _ => Except.ok "X") 0
    ⟨"", "t", none, none, none, none, none⟩ ⟨[], [], 3⟩ (Or.inl (by decide))

/-- The thrown message of a workflow result, `none` on success. -/
def errorOf : Except String Json → Option String
  | Except.error e => some e
  | Except.ok _ => none

/-- C9 counterexample: a backend failure is not surfaced as a generic
"service unavailable" message — the workflow error is
`Failed to generate creator brief: AI service failed: <backend message>`,
which contains the backend-reported message verbatim. -/
theorem c9_counterexample :
    errorOf (generateCreatorBrief
        (fun _ => Except.error "No response generated from OpenAI") 0
        ⟨"p", "t", none, none, none, none, none⟩ ⟨[], [], 0⟩).1
      = some
          "Failed to generate creator brief: AI service failed: No response generated from OpenAI"
    ∧ (generateCreatorBrief
        (fun _ => Except.error "No response generated from OpenAI") 0
        ⟨"p", "t", none, none, none, none, none⟩ ⟨[], [], 0⟩).2
      = ⟨[], [], 1⟩
    ∧ jsIncludes
        "Failed to generate creator brief: AI service failed: No response generated from OpenAI"
        "No response generated from OpenAI" = true := by
  refine ⟨by decide, by decide, by decide⟩

/-- C9 (amended: the provider adapter signals the failure as
`AI service failed: <backend message>` without retrying — exactly one provider
attempt, no cache write, no rate-limit recording — and the workflow surfaces
`Failed to generate creator brief: AI service failed: <backend message>`,
which includes the backend-reported message, unless that text itself contains
`Rate limit exceeded` or `JSON`, in which case the corresponding fixed message
is surfaced instead). -/
theorem c9_provider_error_surfacing
    (provider : List Nat → Except String String) (msg : String)
    (hp : ∀ p, provider p = Except.error msg)
    (now : Int) (i : CreatorBriefInput) (st : AIState)
    (hv : validateInputs i.productDescription i.targetAudience = Except.ok ())
    (hc : st.cache = [])
    (hnl : ∀ rk, i.userId = some rk → isRateLimited st.rateLimiter rk now = false) :
    generateCreatorBrief provider now i st
      = (Except.error (remapBriefError ("AI service failed: " ++ msg)),
         { st with calls := st.calls + 1 })
    ∧ (jsIncludes ("AI service failed: " ++ msg) "Rate limit exceeded" = false →
       jsIncludes ("AI service failed: " ++ msg) "JSON" = false →
       remapBriefError ("AI service failed: " ++ msg)
           = "Failed to generate creator brief: " ++ ("AI service failed: " ++ msg)
         ∧ jsIncludes
             ("Failed to generate creator brief: " ++ ("AI service failed: " ++ msg))
             msg = true) := by
  constructor
  · have hmiss : cacheHit st.cache
        (some (createCacheKey (defaultedFields i))) now = none := by
      simp [cacheHit, isCacheValid, hc, List.lookup]
    have hnl2 : strGiven i.userId = true →
        isRateLimited st.rateLimiter (i.userId.getD "") now = false := by
      intro h
      cases h' : i.userId with
      | none => rw [h'] at h; simp [strGiven] at h
      | some rk => specialize hnl rk h'; simpa [h'] using hnl
    unfold generateCreatorBrief briefRequestRaw
    rw [hv, gcwc_miss_err provider now _ msg _ i.userId st (hp _) hmiss hnl2]
  · intro h1 h2
    refine ⟨by simp [remapBriefError, h1, h2], ?_⟩
    have : ("Failed to generate creator brief: " ++ ("AI service failed: " ++ msg))
        = ("Failed to generate creator brief: " ++ "AI service failed: ") ++ msg := by
      rw [String.append_assoc]
    rw [this]
    exact jsIncludes_append_right _ msg

/-- C9 witness: a concrete backend message `boom` is surfaced inside the
workflow error. -/
theorem c9_witness :
    generateCreatorBrief (fun _ => Except.error "boom") 0
        ⟨"p", "t", none, none, none, none, none⟩ ⟨[], [], 0⟩
      = (Except.error (remapBriefError ("AI service failed: " ++ "boom")),
         ⟨[], [], 1⟩)
    ∧ (jsIncludes ("AI service failed: " ++ "boom") "Rate limit exceeded" = false →
       jsIncludes ("AI service failed: " ++ "boom") "JSON" = false →
       remapBriefError ("AI service failed: " ++ "boom")
           = "Failed to generate creator brief: " ++ ("AI service failed: " ++ "boom")
         ∧ jsIncludes
             ("Failed to generate creator brief: " ++ ("AI service failed: " ++ "boom"))
             "boom" = true) :=
  c9_provider_error_surfacing (fun _ => Except.error "boom") "boom" (fun _ => rfl)
    0 ⟨"p", "t", none, none, none, none, none⟩ ⟨[], [], 0⟩
    (by decide) rfl (fun rk h => nomatch h)

/-- C10: when the provider succeeds, the raw text is cached before parsing:
if the text fails `parseAndValidateResponse`, the first call surfaces the
remapped format error while the raw text sits in the cache under the input's
fingerprint, and a repeated call within the TTL reproduces the identical error
from the cache with the state — hence the provider-call count — unchanged. -/
theorem c10_malformed_cached
    (provider : List Nat → Except String String) (raw : String)
    (hp : ∀ p, provider p = Except.ok raw)
    (i : CreatorBriefInput) (t1 t2 : Int) (st0 : AIState)
    (hv : validateInputs i.productDescription i.targetAudience = Except.ok ())
    (hc : st0.cache = [])
    (hnl : ∀ rk, i.userId = some rk → isRateLimited st0.rateLimiter rk t1 = false)
    (httl : t2 - t1 < 3600000)
    (e : String)
    (he : parseAndValidateResponse raw = Except.error e) :
    ∃ st1, generateCreatorBrief provider t1 i st0
        = (Except.error (remapBriefError e), st1)
      ∧ st1.cache.lookup (createCacheKey (defaultedFields i)) = some ⟨raw, t1⟩
      ∧ st1.calls = st0.calls + 1
      ∧ generateCreatorBrief provider t2 i st1
          = (Except.error (remapBriefError e), st1) := by
  obtain ⟨st1, h1, hcache, hcalls, h2⟩ :=
    briefRequestRaw_two_runs provider raw hp i i rfl t1 t2 st0 hv hc hnl httl
  refine ⟨st1, ?_, ?_, hcalls, ?_⟩
  · unfold generateCreatorBrief
    rw [h1]
    simp [he]
  · rw [hcache]
    simp [List.lookup]
  · unfold generateCreatorBrief
    rw [h2]
    simp [he]

/-- C10 witness: the non-JSON completion `nope` is cached and the repeated
call reproduces the same format error without a second provider call. -/
theorem c10_witness :
    ∃ st1, generateCreatorBrief (fun _ => Except.ok "nope") 0
        ⟨"p", "t", none, none, none, none, some "u"⟩ ⟨[], [], 0⟩
        = (Except.error (remapBriefError "Invalid JSON response from AI service"), st1)
      ∧ st1.cache.lookup
          (createCacheKey (defaultedFields ⟨"p", "t", none, none, none, none, some "u"⟩))
          = some ⟨"nope", 0⟩
      ∧ st1.calls = 0 + 1
      ∧ generateCreatorBrief (fun _ => Except.ok "nope") 1
          ⟨"p", "t", none, none, none, none, some "u"⟩ st1
          = (Except.error (remapBriefError "Invalid JSON response from AI service"), st1) :=
  c10_malformed_cached (fun _ => Except.ok "nope") "nope" (fun _ => rfl)
    ⟨"p", "t", none, none, none, none, some "u"⟩ 0 1 ⟨[], [], 0⟩
    (by decide) rfl (fun rk h => by cases h; rfl) (by decide)
    "Invalid JSON response from AI service" rfl

/-- The net per-character effect of the two escape stages of `sanitizeInput`:
the quote replacement runs first and the backslash doubling then also doubles
the escaping backslashes it introduced. -/
def sanitizeCharView (u : Nat) : List Nat :=
  if u == 34 then [92, 92, 34]
  else if u == 92 then [92, 92]
  else [u]

theorem escapeQuotes_cons (u : Nat) (rest : List Nat) :
    escapeQuotes (u :: rest)
      = (if u == 34 then [92, 34] else [u]) ++ escapeQuotes rest := by
  simp [escapeQuotes]

theorem escapeBackslashes_append (a b : List Nat) :
    escapeBackslashes (a ++ b) = escapeBackslashes a ++ escapeBackslashes b := by
  simp [escapeBackslashes]

/-- Fusion of the two escape stages into one per-character map. -/
theorem escape_stages_fused (l : List Nat) :
    escapeBackslashes (escapeQuotes l) = (l.map sanitizeCharView).flatten := by
  induction l with
  | nil => rfl
  | cons u rest ih =>
    rw [escapeQuotes_cons, escapeBackslashes_append, List.map_cons,
      List.flatten_cons, ih]
    congr 1
    by_cases h34 : u = 34
    · subst h34; rfl
    · by_cases h92 : u = 92
      · subst h92; rfl
      · have b34 : (u == 34) = false := by simp [h34]
        have b92 : (u == 92) = false := by simp [h92]
        simp [sanitizeCharView, escapeBackslashes, b34, b92]
        exact h92

/-- C4 counterexample: a quote is not escaped to `\"` by sanitization — the
backslash stage runs after the quote stage and doubles the escaping backslash,
so `"` becomes `\\"` (three units), not `\"` (two). -/
theorem c4_counterexample :
    sanitizeInput (utf16 "\"") = utf16 "\\\\\""
    ∧ sanitizeInput (utf16 "\"") ≠ utf16 "\\\"" := by
  refine ⟨by decide, by decide⟩

/-- C4 (amended: sanitization is the pure transform: trim; strip angle
brackets; collapse newline runs to single spaces; then per remaining
character: a quote becomes `\\"` — its quote-escaping backslash is itself
escaped by the subsequent backslash stage — a backslash becomes `\\`, anything
else is unchanged.  The prompt depends on the string-typed free-text fields
only through this transform, and on the `platforms` list joined verbatim). -/
theorem c4_sanitize_transform :
    (∀ l : List Nat,
        sanitizeInput l
          = ((collapseNewlines (stripAngleBrackets (jsTrim l))).map
              sanitizeCharView).flatten)
    ∧ (∀ f1 f2 : BriefFields,
        sanitizeInput (utf16 f1.productDescription)
            = sanitizeInput (utf16 f2.productDescription) →
        sanitizeInput (utf16 f1.targetAudience)
            = sanitizeInput (utf16 f2.targetAudience) →
        sanitizeInput (utf16 f1.campaignGoals)
            = sanitizeInput (utf16 f2.campaignGoals) →
        sanitizeInput (utf16 f1.budget) = sanitizeInput (utf16 f2.budget) →
        f1.platforms = f2.platforms →
        sanitizeInput (utf16 f1.timeframe) = sanitizeInput (utf16 f2.timeframe) →
        buildPrompt f1 = buildPrompt f2) := by
  constructor
  · intro l
    unfold sanitizeInput
    exact escape_stages_fused _
  · intro f1 f2 h1 h2 h3 h4 hpl h6
    simp only [buildPrompt, h1, h2, h3, h4, hpl, h6]

set_option maxRecDepth 4000 in
/-- C4 witness: the transform characterization at a concrete string, and
prompt equality for two inputs with equal sanitized fields. -/
theorem c4_witness :
    sanitizeInput (utf16 "q\\")
        = ((collapseNewlines (stripAngleBrackets (jsTrim (utf16 "q\\")))).map
            sanitizeCharView).flatten
    ∧ buildPrompt ⟨" P", "T", "G", "B", ["I"], "F"⟩
        = buildPrompt ⟨"P ", "T", "G", "B", ["I"], "F"⟩ :=
  ⟨c4_sanitize_transform.1 (utf16 "q\\"),
   c4_sanitize_transform.2 ⟨" P", "T", "G", "B", ["I"], "F"⟩
     ⟨"P ", "T", "G", "B", ["I"], "F"⟩
     (by decide) (by decide) (by decide) (by decide) rfl (by decide)⟩

/-- The malformed-but-complete response of the C8 counterexample: every
field required by the spec is present, the three list fields are non-empty,
the three sub-objects are objects — but `campaignTitle` is the empty string,
which is JavaScript-falsy. -/
def c8resp : String :=
  "\x7b\"campaignTitle\":\"\",\"objective\":\"o\",\"platforms\":[\"p\"]," ++
  "\"contentFormats\":[\"c\"],\"messagingPillars\":[\"m\"]," ++
  "\"creativeDirection\":\x7b\x7d,\"deliverables\":\x7b\x7d,\"kpis\":\x7b\x7d\x7d"

set_option maxRecDepth 8000 in
/-- C8 counterexample: a response whose parsed value is an object with all
required fields *present* (none missing), non-empty list fields and object
sub-fields is nevertheless rejected with `Missing required field in AI
response: campaignTitle`, because the check `!briefObj[field]` also fires on a
present-but-falsy value (here the empty string). -/
theorem c8_counterexample :
    errorOf (parseAndValidateResponse c8resp)
      = some "Missing required field in AI response: campaignTitle"
    ∧ (requiredFields.all (fun f =>
        ((jsonParse (cleanResponse c8resp)).map
          (fun j => (jsGet j f).isSome)).getD false)) = true
    ∧ (arrayFields.all (fun f =>
        ((jsonParse (cleanResponse c8resp)).map
          (fun j => isNonEmptyArray (jsGet j f))).getD false)) = true
    ∧ (["creativeDirection", "deliverables", "kpis"].all (fun f =>
        ((jsonParse (cleanResponse c8resp)).map
          (fun j => fieldIsObject j f)).getD false)) = true := by
  refine ⟨by decide, by decide, by decide, by decide⟩

/-- C8 (amended: a required field that is present but JavaScript-falsy — the
empty string, `0`, `false` or `null` — is rejected exactly like a missing
one): after fence stripping, a parse failure yields the invalid-JSON error;
for a parsed value, the validator returns the object exactly when it is truthy
and of object type, every required field is present and truthy, the three list
fields are non-empty arrays, and the three sub-objects are present, truthy and
of object type; otherwise it throws the error naming the first offending
check. -/
theorem c8_parse_validation (response : String) :
    (jsonParse (cleanResponse response) = none →
      parseAndValidateResponse response
        = Except.error "Invalid JSON response from AI service")
    ∧ (∀ j, jsonParse (cleanResponse response) = some j →
        (parseAndValidateResponse response = Except.ok j ↔
          (truthy j = true ∧ jsTypeofObject j = true
            ∧ (∀ f ∈ requiredFields, fieldTruthy j f = true)
            ∧ (∀ f ∈ arrayFields, isNonEmptyArray (jsGet j f) = true)
            ∧ fieldIsObject j "creativeDirection" = true
            ∧ fieldIsObject j "deliverables" = true
            ∧ fieldIsObject j "kpis" = true))) := by
  constructor
  · intro h
    unfold parseAndValidateResponse
    rw [h]
  · intro j hj
    unfold parseAndValidateResponse
    rw [hj]
    constructor
    · intro h
      cases ht : truthy j with
      | false => simp [ht] at h
      | true =>
      cases hto : jsTypeofObject j with
      | false => simp [ht, hto] at h
      | true =>
      cases hreq : requiredFields.find? (fun f => !fieldTruthy j f) with
      | some f => simp [ht, hto, hreq] at h
      | none =>
      cases harr : arrayFields.find? (fun f => !isNonEmptyArray (jsGet j f)) with
      | some f => simp [ht, hto, hreq, harr] at h
      | none =>
      cases hcd : fieldIsObject j "creativeDirection" with
      | false => simp [ht, hto, hreq, harr, hcd] at h
      | true =>
      cases hdl : fieldIsObject j "deliverables" with
      | false => simp [ht, hto, hreq, harr, hcd, hdl] at h
      | true =>
      cases hkp : fieldIsObject j "kpis" with
      | false => simp [ht, hto, hreq, harr, hcd, hdl, hkp] at h
      | true =>
        refine ⟨rfl, rfl, ?_, ?_, rfl, rfl, rfl⟩
        · intro f hf
          have hnf := List.find?_eq_none.mp hreq f hf
          simpa using hnf
        · intro f hf
          have hnf := List.find?_eq_none.mp harr f hf
          simpa using hnf
    · intro rhs
      obtain ⟨ht, hto, hreqAll, harrAll, hcd, hdl, hkp⟩ := rhs
      have hreq : requiredFields.find? (fun f => !fieldTruthy j f) = none :=
        List.find?_eq_none.mpr (fun x hx => by simp [hreqAll x hx])
      have harr : arrayFields.find? (fun f => !isNonEmptyArray (jsGet j f)) = none :=
        List.find?_eq_none.mpr (fun x hx => by simp [harrAll x hx])
      simp [ht, hto, hreq, harr, hcd, hdl, hkp]

/-- The parsed value of the fenced, fully valid response used by the C8
witness. -/
def c8okJson : Json :=
  Json.obj
    [(utf16 "campaignTitle", Json.str (utf16 "t")),
     (utf16 "objective", Json.str (utf16 "o")),
     (utf16 "platforms", Json.arr [Json.str (utf16 "p")]),
     (utf16 "contentFormats", Json.arr [Json.str (utf16 "c")]),
     (utf16 "messagingPillars", Json.arr [Json.str (utf16 "m")]),
     (utf16 "creativeDirection", Json.obj []),
     (utf16 "deliverables", Json.obj []),
     (utf16 "kpis", Json.obj [])]

/-- The fenced valid response of the C8 witness. -/
def c8okResp : String :=
  "```json\n\x7b\"campaignTitle\":\"t\",\"objective\":\"o\"," ++
  "\"platforms\":[\"p\"],\"contentFormats\":[\"c\"],\"messagingPillars\":[\"m\"]," ++
  "\"creativeDirection\":\x7b\x7d,\"deliverables\":\x7b\x7d,\"kpis\":\x7b\x7d\x7d\n```"

set_option maxRecDepth 8000 in
/-- C8 witness: non-JSON text yields the invalid-JSON error; a fenced valid
response is accepted and returned as the parsed object. -/
theorem c8_witness :
    parseAndValidateResponse "nope"
        = Except.error "Invalid JSON response from AI service"
    ∧ parseAndValidateResponse c8okResp = Except.ok c8okJson :=
  ⟨(c8_parse_validation "nope").1 rfl,
   ((c8_parse_validation c8okResp).2 c8okJson rfl).mpr
     ⟨by decide, by decide, by decide, by decide, by decide, by decide, by decide⟩⟩

end CreatorBrief
